import Mathlib

/-!
Verification of the WiFi-RemoteID mesh-mapper detection server
(src/mesh-mapper.py) against its natural-language specification.

The Python program is shallowly embedded: dictionaries become
association lists (preserving insertion order, which Python dict
iteration exposes), numbers become rationals, optional dictionary keys
become Option fields, and the observable side effects of
update_detection (CSV rows, KML regeneration, webhook posts, cache
file writes) become an explicit effect list.  The socketio.emit call
on the fix-bearing path references a name that is never defined or
imported anywhere in the repository, so it always raises a NameError
that the surrounding bare except swallows: no broadcast is ever
observable, and none is modelled.
-/

namespace MeshMapper

/-- Opaque FAA registry payload (a JSON blob in the source); the empty
string stands for the empty dictionary default used by
detection.get with a default of an empty dict. -/
abbrev FaaData := String

/-- A detection record: the Python dict handled by update_detection.
Absent keys are modelled as none. -/
structure Det where
  mac : Option String
  drone_lat : Option Rat
  drone_long : Option Rat
  drone_altitude : Option Rat
  pilot_lat : Option Rat
  pilot_long : Option Rat
  basic_id : Option String
  faa_data : Option FaaData
  last_update : Option Rat
  rssi : Option Rat
deriving DecidableEq

/-- The all-absent detection record, used to build concrete records. -/
def det0 : Det := ⟨none, none, none, none, none, none, none, none, none, none⟩

/-- Python truthiness of an optional string: None and the empty string
are falsy. -/
def truthyS (o : Option String) : Bool :=
  match o with
  | none => false
  | some s => if s = "" then false else true

/-- Python truthiness of an optional number: None and zero are falsy. -/
def truthyR (o : Option Rat) : Bool :=
  match o with
  | none => false
  | some x => if x = 0 then false else true

/-- Dictionary lookup on an association list (first matching key). -/
def lookupD {α β : Type} [DecidableEq α] : List (α × β) → α → Option β
  | [], _ => none
  | (k, v) :: rest, k2 => if k = k2 then some v else lookupD rest k2

/-- Python dict assignment: replace the value at an existing key in
place, otherwise append the new binding at the end (insertion order). -/
def dinsert {α β : Type} [DecidableEq α] (k : α) (v : β) : List (α × β) → List (α × β)
  | [] => [(k, v)]
  | (k2, v2) :: rest => if k2 = k then (k, v) :: rest else (k2, v2) :: dinsert k v rest

/-- First FAA cache entry whose key mac component matches, in insertion
order: the loop over FAA_CACHE.items() with a break on c_mac == mac. -/
def findByMac : List ((String × String) × FaaData) → String → Option FaaData
  | [], _ => none
  | (k, fd) :: rest, mac => if k.1 = mac then some fd else findByMac rest mac

/-- Server state touched by update_detection: tracked_pairs (LiveState),
detection_history (History), FAA_CACHE, and the configured WEBHOOK_URL. -/
structure ServerState where
  tracked_pairs : List (String × Det)
  detection_history : List Det
  faa_cache : List ((String × String) × FaaData)
  webhook_url : Option String
deriving DecidableEq

/-- Observable side effects of one update_detection call, in program
order. -/
inductive Effect where
  | webhookPost : String → Det → Effect
  | sessionCsvRow : Det → Effect
  | cumulativeCsvRow : Det → Effect
  | cacheFileWrite : String → String → FaaData → Effect
  | cumulativeKmlRegen : Effect
  | kmlRegen : Effect
deriving DecidableEq

/-- Fix classification of update_detection: valid_drone is true exactly
when both drone coordinates (defaulted to 0 when absent) are nonzero. -/
def hasFix (d : Det) : Bool :=
  decide (d.drone_lat.getD 0 ≠ 0 ∧ d.drone_long.getD 0 ≠ 0)

/-- The field normalisation on the fix-bearing path: coordinates are
written back, missing altitude and pilot coordinates default to 0, and
last_update is overwritten with the current wall-clock time. -/
def fixNormalize (det : Det) (now : Rat) : Det :=
  { det with
    drone_lat := some (det.drone_lat.getD 0)
    drone_long := some (det.drone_long.getD 0)
    drone_altitude := some (det.drone_altitude.getD 0)
    pilot_lat := some (det.pilot_lat.getD 0)
    pilot_long := some (det.pilot_long.getD 0)
    last_update := some now }

/-- Whether a previous LiveState entry exists and carries a truthy
basic_id. -/
def prevHasBasicId (prev : Option Det) : Bool :=
  match prev with
  | none => false
  | some p => truthyS p.basic_id

/-- Preserve the previous basic_id when the new detection lacks one:
the fix-path merge step of update_detection. -/
def mergeBasicId (prev : Option Det) (d : Det) : Det :=
  if !truthyS d.basic_id && prevHasBasicId prev then
    { d with basic_id := prev.bind (fun p => p.basic_id) }
  else d

/-- The FAA data value resolved on the fix-bearing path: an exact cache
hit on the pair of mac and remote id overwrites any carried faa_data;
only if the record then still has no faa_data, the first cache entry
for this mac is used; only if it still has none, the faa_data of the
previous LiveState entry. -/
def resolveFaaData (cache : List ((String × String) × FaaData)) (prev : Option Det)
    (mac : String) (d : Det) : Option FaaData :=
  let afterExact :=
    match (if truthyS d.basic_id then lookupD cache (mac, d.basic_id.getD "") else none) with
    | some fd => some fd
    | none => d.faa_data
  let afterMacScan :=
    match afterExact with
    | some fd => some fd
    | none => findByMac cache mac
  match afterMacScan with
  | some fd => some fd
  | none =>
    match prev with
    | some p => p.faa_data
    | none => none

/-- The FAA resolution steps of the fix-bearing path only ever assign
the faa_data key of the detection dict, so their net effect is setting
that one field to the resolved value. -/
def resolveFaa (cache : List ((String × String) × FaaData)) (prev : Option Det)
    (mac : String) (d : Det) : Det :=
  { d with faa_data := resolveFaaData cache prev mac d }

/-- The record stored by the fix-bearing path of update_detection:
normalised fields, merged basic_id, resolved faa_data. -/
def mergedDet (st : ServerState) (det : Det) (now : Rat) : Det :=
  resolveFaa st.faa_cache (lookupD st.tracked_pairs (det.mac.getD "")) (det.mac.getD "")
    (mergeBasicId (lookupD st.tracked_pairs (det.mac.getD "")) (fixNormalize det now))

/-- Shallow embedding of update_detection (src/mesh-mapper.py lines
379 to 531).  Returns the new server state together with the list of
side effects in program order.  The now argument stands for
time.time(). -/
def update_detection (st : ServerState) (det : Det) (now : Rat) :
    ServerState × List Effect :=
  if truthyS det.mac = false then (st, [])
  else
    let mac := det.mac.getD ""
    if hasFix det then
      let d5 := mergedDet st det now
      let writeBack : Option ((String × String) × FaaData) :=
        match d5.faa_data with
        | some fd => some ((mac, d5.basic_id.getD ""), fd)
        | none => none
      let cache2 :=
        match writeBack with
        | some (key, fd) => dinsert key fd st.faa_cache
        | none => st.faa_cache
      let cacheEffs : List Effect :=
        match writeBack with
        | some (key, fd) => [Effect.cacheFileWrite key.1 key.2 fd]
        | none => []
      (⟨dinsert mac d5 st.tracked_pairs,
        st.detection_history ++ [d5],
        cache2,
        st.webhook_url⟩,
       cacheEffs ++
         [Effect.sessionCsvRow d5, Effect.cumulativeCsvRow d5,
          Effect.cumulativeKmlRegen, Effect.kmlRegen])
    else
      let webhookEffs : List Effect :=
        match st.webhook_url with
        | some u => [Effect.webhookPost u det]
        | none => []
      let cache2 :=
        if truthyS det.basic_id then
          dinsert (mac, det.basic_id.getD "") (det.faa_data.getD "") st.faa_cache
        else st.faa_cache
      let cacheEffs : List Effect :=
        if truthyS det.basic_id then
          [Effect.cacheFileWrite mac (det.basic_id.getD "") (det.faa_data.getD "")]
        else []
      (⟨dinsert mac det st.tracked_pairs,
        st.detection_history ++ [det],
        cache2,
        st.webhook_url⟩,
       webhookEffs ++
         [Effect.sessionCsvRow det, Effect.cumulativeCsvRow det, Effect.cumulativeKmlRegen] ++
         cacheEffs ++ [Effect.kmlRegen])

/-- First LiveState entry (in insertion order) whose basic_id equals
the identifier and which carries faa_data: the second loop of
api_get_faa. -/
def faaByBasicId : List (String × Det) → String → Option FaaData
  | [], _ => none
  | (_, d) :: rest, id2 =>
    if d.basic_id = some id2 then
      match d.faa_data with
      | some fd => some fd
      | none => faaByBasicId rest id2
    else faaByBasicId rest id2

/-- First FAA cache entry whose key remote id component equals the
identifier, in insertion order. -/
def cacheByRid : List ((String × String) × FaaData) → String → Option FaaData
  | [], _ => none
  | (k, fd) :: rest, id2 => if k.2 = id2 then some fd else cacheByRid rest id2

/-- Shallow embedding of the GET /api/faa/identifier handler
(src/mesh-mapper.py lines 659 to 675): a pure cascade over LiveState
and the FAA cache, returning none exactly when the handler answers
HTTP 404. -/
def api_get_faa (st : ServerState) (identifier : String) : Option FaaData :=
  match (match lookupD st.tracked_pairs identifier with
         | some d => d.faa_data
         | none => none) with
  | some fd => some fd
  | none =>
    match faaByBasicId st.tracked_pairs identifier with
    | some fd => some fd
    | none =>
      match cacheByRid st.faa_cache identifier with
      | some fd => some fd
      | none => findByMac st.faa_cache identifier

/-- Modelled from the claim text: LiveState entry at key identifier,
when it carries faa_data. -/
def specLiveByMac (st : ServerState) (identifier : String) : Option FaaData :=
  (lookupD st.tracked_pairs identifier).bind (fun d => d.faa_data)

/-- Modelled from the claim text: some LiveState entry whose basic_id
equals the identifier and which carries faa_data. -/
def specLiveByRid (st : ServerState) (identifier : String) : Option FaaData :=
  (st.tracked_pairs.find? (fun p => decide (p.2.basic_id = some identifier) && p.2.faa_data.isSome)).bind
    (fun p => p.2.faa_data)

/-- Modelled from the claim text: some cache entry whose key remote id
component equals the identifier. -/
def specCacheByRid (st : ServerState) (identifier : String) : Option FaaData :=
  (st.faa_cache.find? (fun e => decide (e.1.2 = identifier))).map (fun e => e.2)

/-- Modelled from the claim text: some cache entry whose key mac
component equals the identifier. -/
def specCacheByMac (st : ServerState) (identifier : String) : Option FaaData :=
  (st.faa_cache.find? (fun e => decide (e.1.1 = identifier))).map (fun e => e.2)

/-- The four-step lookup cascade exactly as the specification words it:
LiveState by mac, LiveState by remote id, cache by remote id, cache by
mac. -/
def spec_get_faa (st : ServerState) (identifier : String) : Option FaaData :=
  (specLiveByMac st identifier).orElse fun _ =>
    (specLiveByRid st identifier).orElse fun _ =>
      (specCacheByRid st identifier).orElse fun _ =>
        specCacheByMac st identifier

/-- Global stale threshold in seconds (source global staleThreshold). -/
def staleThreshold : Rat := 60

/-- A point of a KML flight: longitude, latitude, timestamp, in the
order the source tuples them. -/
structure FPt where
  lon : Rat
  lat : Rat
  ts : Rat
deriving DecidableEq

/-- Whether a history record contributes a point for this mac in
generate_kml: mac matches and both drone coordinates are truthy. -/
def kmlPasses (mac : String) (d : Det) : Bool :=
  decide (d.mac = some mac) && truthyR d.drone_lat && truthyR d.drone_long

/-- The flight grouping loop of generate_kml (src/mesh-mapper.py lines
195 to 232): cur is the current flight buffer, lastTs the last seen
timestamp of a valid point of this mac.  The break condition is the
Python expression last_ts and (ts - last_ts) > staleThreshold, so a
stored last timestamp of 0 is falsy and never breaks a flight. -/
def flightsAux (thr : Rat) (mac : String) :
    List Det → List FPt → Option Rat → List (List FPt)
  | [], cur, _ => if cur.isEmpty then [] else [cur]
  | d :: rest, cur, lastTs =>
    if kmlPasses mac d then
      let p : FPt := ⟨d.drone_long.getD 0, d.drone_lat.getD 0, d.last_update.getD 0⟩
      if (match lastTs with
          | some t => decide (t ≠ 0) && decide (p.ts - t > thr)
          | none => false) then
        (if cur.isEmpty then [] else [cur]) ++ flightsAux thr mac rest [p] (some p.ts)
      else
        flightsAux thr mac rest (cur ++ [p]) (some p.ts)
    else flightsAux thr mac rest cur lastTs

/-- The flights generate_kml renders for one mac from the detection
history. -/
def generate_kml_flights (thr : Rat) (mac : String) (hist : List Det) : List (List FPt) :=
  flightsAux thr mac hist [] none

/-- Modelled from the claim text: identical grouping but a new flight
starts exactly when a previous valid point exists and the gap is
strictly greater than the threshold, with no truthiness proviso on the
previous timestamp. -/
def specFlightsAux (thr : Rat) (mac : String) :
    List Det → List FPt → Option Rat → List (List FPt)
  | [], cur, _ => if cur.isEmpty then [] else [cur]
  | d :: rest, cur, lastTs =>
    if kmlPasses mac d then
      let p : FPt := ⟨d.drone_long.getD 0, d.drone_lat.getD 0, d.last_update.getD 0⟩
      if (match lastTs with
          | some t => decide (p.ts - t > thr)
          | none => false) then
        (if cur.isEmpty then [] else [cur]) ++ specFlightsAux thr mac rest [p] (some p.ts)
      else
        specFlightsAux thr mac rest (cur ++ [p]) (some p.ts)
    else specFlightsAux thr mac rest cur lastTs

/-- Flight segmentation exactly as the claim states it. -/
def spec_flights (thr : Rat) (mac : String) (hist : List Det) : List (List FPt) :=
  specFlightsAux thr mac hist [] none

/-- Python truthiness of a datetime object: a datetime is always
truthy, unlike a float, for which 0.0 is falsy. -/
def datetimeTruthy (_ : Rat) : Bool := true

/-- The flight grouping loop of generate_cumulative_kml
(src/mesh-mapper.py lines 299 to 346): identical to the session loop
except that its timestamps are datetime objects parsed from the CSV
timestamp column, so in the Python break test
last_ts and (ts - last_ts).total_seconds() > staleThreshold
the stored previous timestamp is always truthy. -/
def cumulativeFlightsAux (thr : Rat) (mac : String) :
    List Det → List FPt → Option Rat → List (List FPt)
  | [], cur, _ => if cur.isEmpty then [] else [cur]
  | d :: rest, cur, lastTs =>
    if kmlPasses mac d then
      let p : FPt := ⟨d.drone_long.getD 0, d.drone_lat.getD 0, d.last_update.getD 0⟩
      if (match lastTs with
          | some t => datetimeTruthy t && decide (p.ts - t > thr)
          | none => false) then
        (if cur.isEmpty then [] else [cur]) ++ cumulativeFlightsAux thr mac rest [p] (some p.ts)
      else
        cumulativeFlightsAux thr mac rest (cur ++ [p]) (some p.ts)
    else cumulativeFlightsAux thr mac rest cur lastTs

/-- The flights generate_cumulative_kml renders for one mac from the
cumulative history rows. -/
def generate_cumulative_kml_flights (thr : Rat) (mac : String) (hist : List Det) :
    List (List FPt) :=
  cumulativeFlightsAux thr mac hist [] none

/-- The drone point api_paths extracts from a history record, when both
coordinates (defaulted to 0) are nonzero. -/
def dronePointOf (d : Det) : Option (Rat × Rat) :=
  if d.drone_lat.getD 0 ≠ 0 ∧ d.drone_long.getD 0 ≠ 0 then
    some (d.drone_lat.getD 0, d.drone_long.getD 0)
  else none

/-- The pilot point api_paths extracts from a history record. -/
def pilotPointOf (d : Det) : Option (Rat × Rat) :=
  if d.pilot_lat.getD 0 ≠ 0 ∧ d.pilot_long.getD 0 ≠ 0 then
    some (d.pilot_lat.getD 0, d.pilot_long.getD 0)
  else none

/-- Python setdefault followed by append: extend the list at an
existing key in place, otherwise create the key at the end. -/
def addPoint (m : String) (pt : Rat × Rat) :
    List (String × List (Rat × Rat)) → List (String × List (Rat × Rat))
  | [] => [(m, [pt])]
  | (k, l) :: rest =>
    if k = m then (k, l ++ [pt]) :: rest else (k, l) :: addPoint m pt rest

/-- One iteration of the api_paths loop: skip records with a falsy
mac, append the selected point under the mac of the record otherwise. -/
def pathStep (sel : Det → Option (Rat × Rat)) (acc : List (String × List (Rat × Rat)))
    (d : Det) : List (String × List (Rat × Rat)) :=
  if truthyS d.mac then
    match sel d with
    | some pt => addPoint (d.mac.getD "") pt acc
    | none => acc
  else acc

/-- The dictionary-building loop of api_paths over the detection
history, for a given point selector (drone or pilot). -/
def buildPaths (sel : Det → Option (Rat × Rat)) (hist : List Det) :
    List (String × List (Rat × Rat)) :=
  hist.foldl (pathStep sel) []

/-- Tail of the api_paths dedupe: drop points equal to the previous
kept point. -/
def dedupeAux {α : Type} [DecidableEq α] (prev : α) : List α → List α
  | [] => []
  | x :: xs => if x = prev then dedupeAux prev xs else x :: dedupeAux x xs

/-- The dedupe helper of api_paths: collapse each run of consecutive
equal points to a single point. -/
def dedupe {α : Type} [DecidableEq α] : List α → List α
  | [] => []
  | x :: xs => x :: dedupeAux x xs

/-- Shallow embedding of the dronePaths component of GET /api/paths
(src/mesh-mapper.py lines 3088 to 3114). -/
def api_paths_drone (hist : List Det) : List (String × List (Rat × Rat)) :=
  (buildPaths dronePointOf hist).map (fun p => (p.1, dedupe p.2))

/-- Shallow embedding of the pilotPaths component of GET /api/paths. -/
def api_paths_pilot (hist : List Det) : List (String × List (Rat × Rat)) :=
  (buildPaths pilotPointOf hist).map (fun p => (p.1, dedupe p.2))

/-- Modelled from the claim text: the per-mac point sequence in history
order, restricted to records of this mac whose selected point exists. -/
def specPoints (sel : Det → Option (Rat × Rat)) (mac : String) (hist : List Det) :
    List (Rat × Rat) :=
  hist.filterMap (fun d => if d.mac = some mac then sel d else none)

/-- Modelled from the claim text of C5: the registry-data resolution
cascade, first match wins, with no regard to faa_data the record may
already carry: (a) exact cache key of mac and remote id, (b) first
cache entry for this mac, (c) faa_data of the previous LiveState
entry. -/
def specResolveFaa (cache : List ((String × String) × FaaData)) (prev : Option Det)
    (mac : String) (rid : Option String) : Option FaaData :=
  match (if truthyS rid then lookupD cache (mac, rid.getD "") else none) with
  | some fd => some fd
  | none =>
    match (cache.find? (fun e => decide (e.1.1 = mac))).map (fun e => e.2) with
    | some fd => some fd
    | none => prev.bind (fun p => p.faa_data)

/-- Whether an effect list contains any webhook post. -/
def hasWebhookEffect (effs : List Effect) : Bool :=
  effs.any (fun e =>
    match e with
    | Effect.webhookPost _ _ => true
    | _ => false)

/-! Concrete inputs used by witnesses and counterexamples. -/

/-- LiveState entry with remote id X used by the C1 counterexample. -/
def prevC1 : Det :=
  { det0 with mac := some "AA", basic_id := some "X", drone_lat := some 1, drone_long := some 1 }

/-- State tracking prevC1 under mac AA. -/
def stC1 : ServerState := ⟨[("AA", prevC1)], [prevC1], [], none⟩

/-- A no-fix detection for mac AA without a remote id. -/
def detC1 : Det := { det0 with mac := some "AA", rssi := some 7 }

/-- LiveState entry with remote id X used by the C1 witness. -/
def prevW1 : Det :=
  { det0 with mac := some "AA", basic_id := some "X", drone_lat := some 1, drone_long := some 1 }

/-- State tracking prevW1 under mac AA. -/
def stW1 : ServerState := ⟨[("AA", prevW1)], [prevW1], [], none⟩

/-- A fix-bearing detection for mac AA without a remote id. -/
def detW1 : Det := { det0 with mac := some "AA", drone_lat := some 2, drone_long := some 3 }

/-- LiveState entry carrying faa_data used by the C2 counterexample. -/
def prevC2 : Det :=
  { det0 with mac := some "BB", faa_data := some "F", drone_lat := some 1, drone_long := some 1 }

/-- State tracking prevC2 under mac BB. -/
def stC2 : ServerState := ⟨[("BB", prevC2)], [prevC2], [], none⟩

/-- A no-fix detection for mac BB without registry data. -/
def detC2 : Det := { det0 with mac := some "BB", rssi := some 9 }

/-- LiveState entry carrying faa_data used by the C2 witness. -/
def prevW2 : Det :=
  { det0 with mac := some "BB", faa_data := some "F", drone_lat := some 1, drone_long := some 1 }

/-- State tracking prevW2 under mac BB. -/
def stW2 : ServerState := ⟨[("BB", prevW2)], [prevW2], [], none⟩

/-- A fix-bearing detection for mac BB without registry data. -/
def detW2 : Det := { det0 with mac := some "BB", drone_lat := some 4, drone_long := some 5 }

/-- A valid-position detection for mac AA at a given timestamp, used by
the C3 counterexample and witness. -/
def flightDet (t : Rat) : Det :=
  { det0 with mac := some "AA", drone_lat := some 1, drone_long := some 2, last_update := some t }

/-- A detection with a nonzero latitude but zero longitude, carrying a
caller-supplied last_update, used by the C4 counterexample. -/
def detC4 : Det := { det0 with mac := some "AA", drone_lat := some 1, last_update := some 7 }

/-- Empty state used by the C4 counterexample. -/
def stC4 : ServerState := ⟨[], [], [], none⟩

/-- A fix-bearing detection used by the C4 witness. -/
def detW4 : Det := { det0 with mac := some "CC", drone_lat := some 6, drone_long := some 7 }

/-- Empty state used by the C4 witness. -/
def stW4 : ServerState := ⟨[], [], [], none⟩

/-- State whose FAA cache holds an entry for mac AA under remote id R2,
used by the C5 counterexample. -/
def stC5 : ServerState := ⟨[], [], [(("AA", "R2"), "Y")], none⟩

/-- A fix-bearing detection for mac AA carrying its own faa_data X and
remote id R1, which has no exact cache entry. -/
def detC5 : Det :=
  { det0 with
    mac := some "AA"
    basic_id := some "R1"
    faa_data := some "X"
    drone_lat := some 1
    drone_long := some 1 }

/-- State whose FAA cache holds an entry for mac AA under remote id R2,
used by the C5 witness. -/
def stW5 : ServerState := ⟨[], [], [(("AA", "R2"), "Y")], none⟩

/-- A fix-bearing detection for mac AA carrying no faa_data, whose
remote id R1 has no exact cache entry. -/
def detW5 : Det :=
  { det0 with mac := some "AA", basic_id := some "R1", drone_lat := some 1, drone_long := some 1 }

/-- State with a configured webhook destination, used by the C6
counterexample. -/
def stC6 : ServerState := ⟨[], [], [], some "http://host/hook"⟩

/-- A fix-bearing detection used by the C6 counterexample. -/
def detC6 : Det := { det0 with mac := some "AA", drone_lat := some 1, drone_long := some 1 }

/-- State with a configured webhook destination, used by the C6
witness. -/
def stW6 : ServerState := ⟨[], [], [], some "u"⟩

/-- A no-fix detection used by the C6 witness. -/
def detW6 : Det := { det0 with mac := some "AA", rssi := some 3 }

/-- State used by the C7 witness-style example and the C8 witness. -/
def stW8 : ServerState := ⟨[], [], [], none⟩

/-- History used by the C9 witness: two equal consecutive drone points,
then a different one, plus a no-fix record. -/
def histW9 : List Det :=
  [ { det0 with
      mac := some "AA"
      drone_lat := some 1
      drone_long := some 2
      pilot_lat := some 9
      pilot_long := some 9 },
    { det0 with mac := some "AA", drone_lat := some 1, drone_long := some 2 },
    { det0 with mac := some "AA", drone_lat := some 3, drone_long := some 4 },
    { det0 with mac := some "AA", rssi := some 5 } ]

/-- A fix-bearing detection carrying a caller-supplied last_update,
used by the C10 witness. -/
def detW10 : Det :=
  { det0 with
    mac := some "DD"
    drone_lat := some 1
    drone_long := some 1
    last_update := some 123 }

/-- Empty state used by the C10 witness. -/
def stW10 : ServerState := ⟨[], [], [], none⟩

/-! Helper lemmas. -/

lemma truthyS_some (o : Option String) (h : truthyS o = true) : o = some (o.getD "") := by
  cases o with
  | none => simp [truthyS] at h
  | some s => rfl

lemma truthyS_getD_ne (o : Option String) (h : truthyS o = true) : o.getD "" ≠ "" := by
  cases o with
  | none => simp [truthyS] at h
  | some s =>
    by_cases hs : s = ""
    · simp [truthyS, hs] at h
    · simpa using hs

lemma truthyR_eq_decide (o : Option Rat) : truthyR o = decide (o.getD 0 ≠ 0) := by
  cases o with
  | none => simp [truthyR]
  | some x =>
    by_cases hx : x = 0 <;> simp [truthyR, hx]

lemma lookupD_dinsert_self {α β : Type} [DecidableEq α] (k : α) (v : β) (l : List (α × β)) :
    lookupD (dinsert k v l) k = some v := by
  induction l with
  | nil => simp [dinsert, lookupD]
  | cons kv rest ih =>
    obtain ⟨k2, v2⟩ := kv
    by_cases hk : k2 = k
    · simp [dinsert, hk, lookupD]
    · simp [dinsert, hk, lookupD, ih]

lemma mergeBasicId_mac (prev : Option Det) (d : Det) :
    (mergeBasicId prev d).mac = d.mac := by
  unfold mergeBasicId; split <;> rfl

lemma mergeBasicId_drone_lat (prev : Option Det) (d : Det) :
    (mergeBasicId prev d).drone_lat = d.drone_lat := by
  unfold mergeBasicId; split <;> rfl

lemma mergeBasicId_drone_long (prev : Option Det) (d : Det) :
    (mergeBasicId prev d).drone_long = d.drone_long := by
  unfold mergeBasicId; split <;> rfl

lemma mergeBasicId_last_update (prev : Option Det) (d : Det) :
    (mergeBasicId prev d).last_update = d.last_update := by
  unfold mergeBasicId; split <;> rfl

lemma mergeBasicId_faa_data (prev : Option Det) (d : Det) :
    (mergeBasicId prev d).faa_data = d.faa_data := by
  unfold mergeBasicId; split <;> rfl

lemma mergeBasicId_basic_id_of (p : Det) (d : Det)
    (hd : truthyS d.basic_id = false) (hp : truthyS p.basic_id = true) :
    (mergeBasicId (some p) d).basic_id = p.basic_id := by
  unfold mergeBasicId
  have hcond : (!truthyS d.basic_id && prevHasBasicId (some p)) = true := by
    simp [hd, prevHasBasicId, hp]
  rw [if_pos hcond]
  simp [Option.bind]

lemma resolveFaa_mac (cache : List ((String × String) × FaaData)) (prev : Option Det)
    (mac : String) (d : Det) : (resolveFaa cache prev mac d).mac = d.mac := rfl

lemma resolveFaa_basic_id (cache : List ((String × String) × FaaData)) (prev : Option Det)
    (mac : String) (d : Det) : (resolveFaa cache prev mac d).basic_id = d.basic_id := rfl

lemma resolveFaa_drone_lat (cache : List ((String × String) × FaaData)) (prev : Option Det)
    (mac : String) (d : Det) : (resolveFaa cache prev mac d).drone_lat = d.drone_lat := rfl

lemma resolveFaa_drone_long (cache : List ((String × String) × FaaData)) (prev : Option Det)
    (mac : String) (d : Det) : (resolveFaa cache prev mac d).drone_long = d.drone_long := rfl

lemma resolveFaa_last_update (cache : List ((String × String) × FaaData)) (prev : Option Det)
    (mac : String) (d : Det) : (resolveFaa cache prev mac d).last_update = d.last_update := rfl

lemma resolveFaa_faa_data (cache : List ((String × String) × FaaData)) (prev : Option Det)
    (mac : String) (d : Det) :
    (resolveFaa cache prev mac d).faa_data = resolveFaaData cache prev mac d := rfl

lemma resolveFaaData_isSome_of_prev (cache : List ((String × String) × FaaData)) (p : Det)
    (mac : String) (d : Det) (hp : p.faa_data.isSome = true) :
    (resolveFaaData cache (some p) mac d).isSome = true := by
  unfold resolveFaaData
  cases hx : (match (if truthyS d.basic_id then lookupD cache (mac, d.basic_id.getD "") else none) with
              | some fd => some fd
              | none => d.faa_data) with
  | some fd => simp [hx]
  | none =>
    simp only [hx]
    cases hy : findByMac cache mac with
    | some fd => simp
    | none => simpa using hp

lemma mergedDet_mac (st : ServerState) (det : Det) (now : Rat) :
    (mergedDet st det now).mac = det.mac := by
  unfold mergedDet
  rw [resolveFaa_mac, mergeBasicId_mac]
  rfl

lemma mergedDet_drone_lat (st : ServerState) (det : Det) (now : Rat) :
    (mergedDet st det now).drone_lat = some (det.drone_lat.getD 0) := by
  unfold mergedDet
  rw [resolveFaa_drone_lat, mergeBasicId_drone_lat]
  rfl

lemma mergedDet_drone_long (st : ServerState) (det : Det) (now : Rat) :
    (mergedDet st det now).drone_long = some (det.drone_long.getD 0) := by
  unfold mergedDet
  rw [resolveFaa_drone_long, mergeBasicId_drone_long]
  rfl

lemma mergedDet_last_update (st : ServerState) (det : Det) (now : Rat) :
    (mergedDet st det now).last_update = some now := by
  unfold mergedDet
  rw [resolveFaa_last_update, mergeBasicId_last_update]
  rfl

lemma mergedDet_basic_id (st : ServerState) (det : Det) (now : Rat) :
    (mergedDet st det now).basic_id =
      (mergeBasicId (lookupD st.tracked_pairs (det.mac.getD "")) (fixNormalize det now)).basic_id := by
  unfold mergedDet
  rw [resolveFaa_basic_id]

lemma mergedDet_faa_data (st : ServerState) (det : Det) (now : Rat) :
    (mergedDet st det now).faa_data =
      resolveFaaData st.faa_cache (lookupD st.tracked_pairs (det.mac.getD "")) (det.mac.getD "")
        (mergeBasicId (lookupD st.tracked_pairs (det.mac.getD "")) (fixNormalize det now)) := by
  unfold mergedDet
  rw [resolveFaa_faa_data]

lemma update_detection_fix (st : ServerState) (det : Det) (now : Rat)
    (hmac : truthyS det.mac = true) (hfix : hasFix det = true) :
    update_detection st det now =
      (⟨dinsert (det.mac.getD "") (mergedDet st det now) st.tracked_pairs,
        st.detection_history ++ [mergedDet st det now],
        (match (mergedDet st det now).faa_data with
         | some fd =>
             dinsert (det.mac.getD "", (mergedDet st det now).basic_id.getD "") fd st.faa_cache
         | none => st.faa_cache),
        st.webhook_url⟩,
       (match (mergedDet st det now).faa_data with
        | some fd =>
            [Effect.cacheFileWrite (det.mac.getD "") ((mergedDet st det now).basic_id.getD "") fd]
        | none => []) ++
         [Effect.sessionCsvRow (mergedDet st det now),
          Effect.cumulativeCsvRow (mergedDet st det now), Effect.cumulativeKmlRegen,
          Effect.kmlRegen]) := by
  unfold update_detection
  rw [hmac, hfix]
  cases hfd : (mergedDet st det now).faa_data <;> simp [hfd]

lemma update_detection_nofix (st : ServerState) (det : Det) (now : Rat)
    (hmac : truthyS det.mac = true) (hnofix : hasFix det = false) :
    update_detection st det now =
      (⟨dinsert (det.mac.getD "") det st.tracked_pairs,
        st.detection_history ++ [det],
        (if truthyS det.basic_id then
           dinsert (det.mac.getD "", det.basic_id.getD "") (det.faa_data.getD "") st.faa_cache
         else st.faa_cache),
        st.webhook_url⟩,
       (match st.webhook_url with
        | some u => [Effect.webhookPost u det]
        | none => []) ++
         [Effect.sessionCsvRow det, Effect.cumulativeCsvRow det, Effect.cumulativeKmlRegen] ++
         (if truthyS det.basic_id then
            [Effect.cacheFileWrite (det.mac.getD "") (det.basic_id.getD "") (det.faa_data.getD "")]
          else []) ++
         [Effect.kmlRegen]) := by
  unfold update_detection
  rw [hmac, hnofix]
  simp

lemma fixNormalize_basic_id (det : Det) (now : Rat) :
    (fixNormalize det now).basic_id = det.basic_id := rfl

lemma fixNormalize_faa_data (det : Det) (now : Rat) :
    (fixNormalize det now).faa_data = det.faa_data := rfl

lemma truthyS_iff (o : Option String) :
    truthyS o = true ↔ ∃ s, o = some s ∧ s ≠ "" := by
  cases o with
  | none => simp [truthyS]
  | some s => by_cases hs : s = "" <;> simp [truthyS, hs]

lemma hasFix_iff (d : Det) :
    hasFix d = true ↔ (d.drone_lat.getD 0 ≠ 0 ∧ d.drone_long.getD 0 ≠ 0) := by
  simp [hasFix]

/-! Claim C1. -/

/-- Claim C1 as stated is false: on the no-fix path update_detection
stores the incoming record unchanged, so a no-fix record without a
remote id erases the tracked non-empty remote id.  Here mac AA is
tracked with basic_id X, a no-fix record without basic_id arrives, and
afterwards LiveState of AA has no basic_id. -/
theorem noFix_update_erases_remote_id :
    truthyS prevC1.basic_id = true ∧
    truthyS detC1.basic_id = false ∧
    detC1.drone_lat.getD 0 = 0 ∧ detC1.drone_long.getD 0 = 0 ∧
    lookupD stC1.tracked_pairs "AA" = some prevC1 ∧
    lookupD (update_detection stC1 detC1 5).1.tracked_pairs "AA" = some detC1 ∧
    detC1.basic_id = none := by
  decide

/-- Claim C1 (amended): for a mac tracked with a non-empty remote id,
a later fix-bearing detection (both drone coordinates nonzero) that
lacks a remote id leaves the stored remote id equal to its previous
non-empty value.  (No-fix updates instead replace the stored record
wholesale, dropping the remote id.) -/
theorem remote_id_preserved_on_fix_update (st : ServerState) (det prev : Det) (now : Rat)
    (hmac : truthyS det.mac = true)
    (hprev : lookupD st.tracked_pairs (det.mac.getD "") = some prev)
    (hpb : truthyS prev.basic_id = true)
    (hdb : truthyS det.basic_id = false)
    (hfix : hasFix det = true) :
    ∃ d2, lookupD (update_detection st det now).1.tracked_pairs (det.mac.getD "") = some d2
      ∧ d2.basic_id = prev.basic_id := by
  refine ⟨mergedDet st det now, ?_, ?_⟩
  · rw [update_detection_fix st det now hmac hfix]
    exact lookupD_dinsert_self _ _ _
  · rw [mergedDet_basic_id, hprev]
    have hdb2 : truthyS (fixNormalize det now).basic_id = false := by
      rw [fixNormalize_basic_id]; exact hdb
    exact mergeBasicId_basic_id_of prev _ hdb2 hpb

/-- Witness for the amended C1 at a concrete input. -/
theorem remote_id_preserved_witness :
    truthyS detW1.mac = true ∧ hasFix detW1 = true ∧
    (∃ d2, lookupD (update_detection stW1 detW1 5).1.tracked_pairs (detW1.mac.getD "") = some d2
      ∧ d2.basic_id = prevW1.basic_id) :=
  ⟨by decide, by decide,
   remote_id_preserved_on_fix_update stW1 detW1 prevW1 5 (by decide) (by decide) (by decide)
     (by decide) (by decide)⟩

/-! Claim C2. -/

/-- Claim C2 as stated is false: a no-fix record without registry data
replaces the tracked record wholesale, erasing the stored faa_data.
Here mac BB is tracked with faa_data F, a no-fix record without
faa_data arrives, and afterwards LiveState of BB has none. -/
theorem noFix_update_erases_faa_data :
    prevC2.faa_data.isSome = true ∧
    detC2.faa_data = none ∧
    detC2.drone_lat.getD 0 = 0 ∧ detC2.drone_long.getD 0 = 0 ∧
    lookupD stC2.tracked_pairs "BB" = some prevC2 ∧
    lookupD (update_detection stC2 detC2 5).1.tracked_pairs "BB" = some detC2 := by
  decide

/-- Claim C2 (amended): for a mac tracked with faa_data attached, any
later fix-bearing detection (regardless of whether it carries registry
data) leaves faa_data present on the stored LiveState entry: the
resolution cascade ends at the previous faa_data, so it is never
erased on that path.  (No-fix updates instead replace the record
wholesale, dropping faa_data.) -/
theorem faa_data_present_after_fix_update (st : ServerState) (det prev : Det) (now : Rat)
    (hmac : truthyS det.mac = true)
    (hprev : lookupD st.tracked_pairs (det.mac.getD "") = some prev)
    (hpf : prev.faa_data.isSome = true)
    (hfix : hasFix det = true) :
    ∃ d2, lookupD (update_detection st det now).1.tracked_pairs (det.mac.getD "") = some d2
      ∧ d2.faa_data.isSome = true := by
  refine ⟨mergedDet st det now, ?_, ?_⟩
  · rw [update_detection_fix st det now hmac hfix]
    exact lookupD_dinsert_self _ _ _
  · rw [mergedDet_faa_data, hprev]
    exact resolveFaaData_isSome_of_prev _ _ _ _ hpf

/-- Witness for the amended C2 at a concrete input. -/
theorem faa_data_present_witness :
    truthyS detW2.mac = true ∧ hasFix detW2 = true ∧
    (∃ d2, lookupD (update_detection stW2 detW2 5).1.tracked_pairs (detW2.mac.getD "") = some d2
      ∧ d2.faa_data.isSome = true) :=
  ⟨by decide, by decide,
   faa_data_present_after_fix_update stW2 detW2 prevW2 5 (by decide) (by decide) (by decide)
     (by decide)⟩

/-! Claim C8. -/

/-- Claim C8 (confirmed): a detection whose mac is absent or empty is
dropped before anything happens: the state is unchanged and no side
effect is emitted. -/
theorem update_without_mac_is_noop (st : ServerState) (det : Det) (now : Rat)
    (h : truthyS det.mac = false) :
    update_detection st det now = (st, []) := by
  unfold update_detection
  rw [h]
  simp

/-- Witness for C8 at a concrete input (absent mac). -/
theorem update_without_mac_witness :
    truthyS det0.mac = false ∧ update_detection stW8 det0 0 = (stW8, []) :=
  ⟨by decide, update_without_mac_is_noop stW8 det0 0 (by decide)⟩

/-! Claim C10. -/

/-- Claim C10 (confirmed): on the fix-bearing path the last_update of
the stored record is overwritten with the server clock, both in LiveState
and in the appended History entry; on the no-fix path the record is
stored exactly as it arrived, caller-supplied last_update included. -/
theorem last_update_overwrite_policy (st : ServerState) (det : Det) (now : Rat)
    (hmac : truthyS det.mac = true) :
    (hasFix det = true →
      ∃ d2, lookupD (update_detection st det now).1.tracked_pairs (det.mac.getD "") = some d2
        ∧ d2.last_update = some now
        ∧ (update_detection st det now).1.detection_history = st.detection_history ++ [d2])
    ∧ (hasFix det = false →
      lookupD (update_detection st det now).1.tracked_pairs (det.mac.getD "") = some det
        ∧ (update_detection st det now).1.detection_history = st.detection_history ++ [det]) := by
  constructor
  · intro hfix
    refine ⟨mergedDet st det now, ?_, mergedDet_last_update _ _ _, ?_⟩
    · rw [update_detection_fix st det now hmac hfix]
      exact lookupD_dinsert_self _ _ _
    · rw [update_detection_fix st det now hmac hfix]
  · intro hnofix
    rw [update_detection_nofix st det now hmac hnofix]
    exact ⟨lookupD_dinsert_self _ _ _, rfl⟩

/-- Witness for C10 at a concrete fix-bearing input whose caller
last_update 123 is replaced by the server clock 456. -/
theorem last_update_witness :
    truthyS detW10.mac = true ∧
    ((hasFix detW10 = true →
      ∃ d2, lookupD (update_detection stW10 detW10 456).1.tracked_pairs (detW10.mac.getD "") = some d2
        ∧ d2.last_update = some 456
        ∧ (update_detection stW10 detW10 456).1.detection_history =
            stW10.detection_history ++ [d2])
    ∧ (hasFix detW10 = false →
      lookupD (update_detection stW10 detW10 456).1.tracked_pairs (detW10.mac.getD "") = some detW10
        ∧ (update_detection stW10 detW10 456).1.detection_history =
            stW10.detection_history ++ [detW10])) :=
  ⟨by decide, last_update_overwrite_policy stW10 detW10 456 (by decide)⟩

lemma hasFix_false_iff (d : Det) :
    hasFix d = false ↔ (d.drone_lat.getD 0 = 0 ∨ d.drone_long.getD 0 = 0) := by
  simp [hasFix]
  tauto

/-! Claim C4. -/

/-- Claim C4 as stated is false: a record with a nonzero latitude but
zero longitude is still classified no-fix (the code requires BOTH
coordinates nonzero to take the merge path).  The record is stored
unchanged, keeping its caller-supplied last_update 7 instead of the
server clock 999, only the no-fix side effects are emitted, and it
contributes no drone point. -/
theorem single_zero_coordinate_is_no_fix :
    detC4.drone_lat.getD 0 = 1 ∧
    detC4.drone_long.getD 0 = 0 ∧
    (update_detection stC4 detC4 999).1.detection_history = [detC4] ∧
    detC4.last_update = some 7 ∧
    dronePointOf detC4 = none ∧
    (update_detection stC4 detC4 999).2 =
      [Effect.sessionCsvRow detC4, Effect.cumulativeCsvRow detC4,
       Effect.cumulativeKmlRegen, Effect.kmlRegen] := by
  decide

/-- Claim C4 (amended): a record is classified no-fix exactly when
droneLat or droneLong is zero or absent.  A no-fix record is stored in
LiveState and History unchanged and contributes no point to path or
flight construction; a record with BOTH coordinates nonzero takes the
fix-bearing merge path (the merged, normalised record is stored and
appended) and its point is included by the path and flight filters. -/
theorem no_fix_classification (st : ServerState) (det : Det) (now : Rat)
    (hmac : truthyS det.mac = true) :
    (hasFix det = false →
       (update_detection st det now).1.detection_history = st.detection_history ++ [det]
       ∧ lookupD (update_detection st det now).1.tracked_pairs (det.mac.getD "") = some det
       ∧ dronePointOf det = none
       ∧ kmlPasses (det.mac.getD "") det = false)
    ∧ (hasFix det = true →
       (update_detection st det now).1.detection_history =
         st.detection_history ++ [mergedDet st det now]
       ∧ lookupD (update_detection st det now).1.tracked_pairs (det.mac.getD "") =
           some (mergedDet st det now)
       ∧ dronePointOf (mergedDet st det now) =
           some (det.drone_lat.getD 0, det.drone_long.getD 0)
       ∧ kmlPasses (det.mac.getD "") (mergedDet st det now) = true) := by
  constructor
  · intro hnofix
    have hdisj := (hasFix_false_iff det).mp hnofix
    refine ⟨?_, ?_, ?_, ?_⟩
    · rw [update_detection_nofix st det now hmac hnofix]
    · rw [update_detection_nofix st det now hmac hnofix]
      exact lookupD_dinsert_self _ _ _
    · unfold dronePointOf
      rw [if_neg]
      rintro ⟨h1, h2⟩
      rcases hdisj with h | h
      · exact h1 h
      · exact h2 h
    · unfold kmlPasses
      rw [truthyR_eq_decide, truthyR_eq_decide]
      rcases hdisj with h | h <;> simp [h]
  · intro hfix
    have hc := (hasFix_iff det).mp hfix
    refine ⟨?_, ?_, ?_, ?_⟩
    · rw [update_detection_fix st det now hmac hfix]
    · rw [update_detection_fix st det now hmac hfix]
      exact lookupD_dinsert_self _ _ _
    · unfold dronePointOf
      rw [mergedDet_drone_lat, mergedDet_drone_long]
      simp only [Option.getD_some]
      rw [if_pos hc]
    · unfold kmlPasses
      rw [mergedDet_mac, mergedDet_drone_lat, mergedDet_drone_long,
        truthyR_eq_decide, truthyR_eq_decide]
      obtain ⟨s, hs, hne⟩ := (truthyS_iff det.mac).mp hmac
      simp [hs, hc.1, hc.2]

/-- Witness for the amended C4 at a concrete fix-bearing input. -/
theorem no_fix_classification_witness :
    truthyS detW4.mac = true ∧
    ((hasFix detW4 = false →
       (update_detection stW4 detW4 1).1.detection_history =
         stW4.detection_history ++ [detW4]
       ∧ lookupD (update_detection stW4 detW4 1).1.tracked_pairs (detW4.mac.getD "") = some detW4
       ∧ dronePointOf detW4 = none
       ∧ kmlPasses (detW4.mac.getD "") detW4 = false)
    ∧ (hasFix detW4 = true →
       (update_detection stW4 detW4 1).1.detection_history =
         stW4.detection_history ++ [mergedDet stW4 detW4 1]
       ∧ lookupD (update_detection stW4 detW4 1).1.tracked_pairs (detW4.mac.getD "") =
           some (mergedDet stW4 detW4 1)
       ∧ dronePointOf (mergedDet stW4 detW4 1) =
           some (detW4.drone_lat.getD 0, detW4.drone_long.getD 0)
       ∧ kmlPasses (detW4.mac.getD "") (mergedDet stW4 detW4 1) = true)) :=
  ⟨by decide, no_fix_classification stW4 detW4 1 (by decide)⟩

/-! Claim C6. -/

/-- Claim C6 as stated is false: with a webhook URL configured, a
fix-bearing update posts nothing to it — the server-side webhook fires
only on the no-fix branch of update_detection. -/
theorem fix_update_fires_no_webhook :
    stC6.webhook_url = some "http://host/hook" ∧
    hasFix detC6 = true ∧
    hasWebhookEffect (update_detection stC6 detC6 1).2 = false := by
  decide

/-- Claim C6 (amended): while a webhook URL is configured, exactly the
no-fix updates post the detection payload to it; fix-bearing updates
emit no webhook post at all.  (In the source the post is wrapped in
try/except with timeout 5, so a failure is logged and never aborts the
update.) -/
theorem webhook_fires_only_on_no_fix (st : ServerState) (det : Det) (now : Rat) (u : String)
    (hmac : truthyS det.mac = true) (hurl : st.webhook_url = some u) :
    (hasFix det = false → Effect.webhookPost u det ∈ (update_detection st det now).2)
    ∧ (hasFix det = true → hasWebhookEffect (update_detection st det now).2 = false) := by
  constructor
  · intro hnofix
    rw [update_detection_nofix st det now hmac hnofix, hurl]
    simp
  · intro hfix
    rw [update_detection_fix st det now hmac hfix]
    cases hfd : (mergedDet st det now).faa_data <;> simp [hasWebhookEffect, hfd]

/-- Witness for the amended C6 at a concrete no-fix input. -/
theorem webhook_only_no_fix_witness :
    truthyS detW6.mac = true ∧ stW6.webhook_url = some "u" ∧ hasFix detW6 = false ∧
    Effect.webhookPost "u" detW6 ∈ (update_detection stW6 detW6 1).2 :=
  ⟨by decide, by decide, by decide,
   (webhook_fires_only_on_no_fix stW6 detW6 1 "u" (by decide) (by decide)).1 (by decide)⟩

lemma findByMac_eq_find (l : List ((String × String) × FaaData)) (mac : String) :
    findByMac l mac = (l.find? (fun e => decide (e.1.1 = mac))).map (fun e => e.2) := by
  induction l with
  | nil => rfl
  | cons e rest ih =>
    obtain ⟨k, fd⟩ := e
    by_cases hk : k.1 = mac
    · simp [findByMac, hk]
    · simp [findByMac, hk, ih]

lemma resolveFaaData_eq_spec (cache : List ((String × String) × FaaData)) (prev : Option Det)
    (mac : String) (d : Det) (h : d.faa_data = none) :
    resolveFaaData cache prev mac d = specResolveFaa cache prev mac d.basic_id := by
  unfold resolveFaaData specResolveFaa
  rw [h, findByMac_eq_find]
  cases hX : (if truthyS d.basic_id then lookupD cache (mac, d.basic_id.getD "") else none) with
  | some fd => simp [hX]
  | none =>
    simp only [hX]
    cases hY : (cache.find? (fun e => decide (e.1.1 = mac))).map (fun e => e.2) with
    | some fd => simp [hY]
    | none =>
      simp only [hY]
      cases prev with
      | none => rfl
      | some p => simp

/-! Claim C5. -/

/-- Claim C5 as stated is false when the incoming record already
carries faa_data: the spec cascade would return payload Y from the
cache entry for the same mac (step b), but the code skips the
fallbacks because the record already has faa_data and stores the
carried X instead. -/
theorem carried_faa_data_skips_cascade :
    detC5.faa_data = some "X" ∧
    specResolveFaa stC5.faa_cache (lookupD stC5.tracked_pairs "AA") "AA" detC5.basic_id =
      some "Y" ∧
    (lookupD (update_detection stC5 detC5 1).1.tracked_pairs "AA").bind (fun d => d.faa_data) =
      some "X" := by
  decide

/-- Claim C5 (amended): for a fix-bearing update whose record does NOT
already carry faa_data, faa_data is resolved by the first-match-wins
cascade — exact cache entry for the pair of mac and remote id, else
any cache entry whose mac matches, else the previous LiveState
faa_data — and the resolved value, when any, is written back into the
cache under the pair of mac and the current basic_id or the empty
string.  (A record that carries faa_data keeps it unless the exact
cache entry overwrites it; the fallbacks are skipped.) -/
theorem faa_cascade_when_record_lacks_faa (st : ServerState) (det : Det) (now : Rat)
    (hmac : truthyS det.mac = true) (hfix : hasFix det = true)
    (hnofaa : det.faa_data = none) :
    ∃ d2, lookupD (update_detection st det now).1.tracked_pairs (det.mac.getD "") = some d2
      ∧ d2.faa_data =
          specResolveFaa st.faa_cache (lookupD st.tracked_pairs (det.mac.getD ""))
            (det.mac.getD "")
            ((mergeBasicId (lookupD st.tracked_pairs (det.mac.getD ""))
                (fixNormalize det now)).basic_id)
      ∧ (update_detection st det now).1.faa_cache =
          (match d2.faa_data with
           | some fd => dinsert (det.mac.getD "", d2.basic_id.getD "") fd st.faa_cache
           | none => st.faa_cache) := by
  refine ⟨mergedDet st det now, ?_, ?_, ?_⟩
  · rw [update_detection_fix st det now hmac hfix]
    exact lookupD_dinsert_self _ _ _
  · rw [mergedDet_faa_data]
    apply resolveFaaData_eq_spec
    rw [mergeBasicId_faa_data, fixNormalize_faa_data]
    exact hnofaa
  · rw [update_detection_fix st det now hmac hfix]

/-- Witness for the amended C5 at a concrete input: the record for mac
AA has remote id R1 and no faa_data; the cache holds an entry for AA
under R2, so the mac fallback resolves payload Y. -/
theorem faa_cascade_witness :
    truthyS detW5.mac = true ∧ hasFix detW5 = true ∧ detW5.faa_data = none ∧
    (∃ d2, lookupD (update_detection stW5 detW5 1).1.tracked_pairs (detW5.mac.getD "") = some d2
      ∧ d2.faa_data =
          specResolveFaa stW5.faa_cache (lookupD stW5.tracked_pairs (detW5.mac.getD ""))
            (detW5.mac.getD "")
            ((mergeBasicId (lookupD stW5.tracked_pairs (detW5.mac.getD ""))
                (fixNormalize detW5 1)).basic_id)
      ∧ (update_detection stW5 detW5 1).1.faa_cache =
          (match d2.faa_data with
           | some fd => dinsert (detW5.mac.getD "", d2.basic_id.getD "") fd stW5.faa_cache
           | none => stW5.faa_cache)) :=
  ⟨by decide, by decide, by decide,
   faa_cascade_when_record_lacks_faa stW5 detW5 1 (by decide) (by decide) (by decide)⟩

lemma flightsAux_eq_spec (thr : Rat) (mac : String) :
    ∀ (hist : List Det) (cur : List FPt) (lastTs : Option Rat),
      (∀ d ∈ hist, kmlPasses mac d = true → d.last_update.getD 0 ≠ 0) →
      (∀ t, lastTs = some t → t ≠ 0) →
      flightsAux thr mac hist cur lastTs = specFlightsAux thr mac hist cur lastTs := by
  intro hist
  induction hist with
  | nil =>
    intro cur lastTs _ _
    rfl
  | cons d rest ih =>
    intro cur lastTs h hl
    have hrest : ∀ d2 ∈ rest, kmlPasses mac d2 = true → d2.last_update.getD 0 ≠ 0 :=
      fun d2 hd2 => h d2 (List.mem_cons_of_mem _ hd2)
    by_cases hp : kmlPasses mac d = true
    · have hts : d.last_update.getD 0 ≠ 0 := h d (List.mem_cons_self _ _) hp
      have hnew : ∀ t2, (some (d.last_update.getD 0) : Option Rat) = some t2 → t2 ≠ 0 := by
        intro t2 ht2
        cases ht2
        exact hts
      cases lastTs with
      | none =>
        simp only [flightsAux, specFlightsAux, hp, if_true]
        exact ih _ _ hrest hnew
      | some t =>
        have ht : t ≠ 0 := hl t rfl
        by_cases hgt : d.last_update.getD 0 - t > thr
        · simp only [flightsAux, specFlightsAux, hp, if_true, ht, hgt, decide_true_eq_true,
            Bool.true_and, decide_eq_true_eq, if_pos, ne_eq, not_false_eq_true]
          rw [ih _ _ hrest hnew]
        · simp only [flightsAux, specFlightsAux, hp, if_true, ht, hgt, decide_true_eq_true,
            Bool.true_and, decide_eq_true_eq, if_neg, ne_eq, not_false_eq_true]
          rw [ih _ _ hrest hnew]
    · have hp2 : kmlPasses mac d = false := by
        revert hp
        cases kmlPasses mac d <;> simp
      simp only [flightsAux, specFlightsAux, hp2]
      exact ih _ _ hrest hl

/-! Claim C3. -/

/-- Claim C3 as stated is false at a previous timestamp of 0: the gap
from t equal to 0 to t equal to 100 exceeds the threshold 60, yet
generate_kml_flights keeps both points in one flight, because the
Python break condition tests the truthiness of the stored previous
timestamp and 0.0 is falsy. -/
theorem flight_not_split_at_zero_timestamp :
    (100 : Rat) - 0 > staleThreshold ∧
    generate_kml_flights staleThreshold "AA" [flightDet 0, flightDet 100] =
      [[⟨2, 1, 0⟩, ⟨2, 1, 100⟩]] ∧
    spec_flights staleThreshold "AA" [flightDet 0, flightDet 100] =
      [[⟨2, 1, 0⟩], [⟨2, 1, 100⟩]] := by
  refine ⟨by norm_num [staleThreshold], by decide, ?_⟩
  norm_num [spec_flights, specFlightsAux, kmlPasses, truthyR, flightDet, det0, staleThreshold]

lemma cumulativeFlightsAux_eq_spec (thr : Rat) (mac : String) :
    ∀ (hist : List Det) (cur : List FPt) (lastTs : Option Rat),
      cumulativeFlightsAux thr mac hist cur lastTs = specFlightsAux thr mac hist cur lastTs := by
  intro hist
  induction hist with
  | nil =>
    intro cur lastTs
    rfl
  | cons d rest ih =>
    intro cur lastTs
    by_cases hp : kmlPasses mac d = true
    · cases lastTs with
      | none =>
        simp only [cumulativeFlightsAux, specFlightsAux, hp, if_true]
        exact ih _ _
      | some t =>
        by_cases hgt : d.last_update.getD 0 - t > thr
        · simp only [cumulativeFlightsAux, specFlightsAux, hp, if_true, hgt, datetimeTruthy,
            Bool.true_and, decide_eq_true_eq, if_pos, decide_true_eq_true]
          rw [ih _ _]
        · simp only [cumulativeFlightsAux, specFlightsAux, hp, if_true, hgt, datetimeTruthy,
            Bool.true_and, decide_eq_true_eq, decide_true_eq_true]
          rw [if_neg (by simp), if_neg (by simp), ih _ _]
    · have hp2 : kmlPasses mac d = false := by
        revert hp
        cases kmlPasses mac d <;> simp
      simp only [cumulativeFlightsAux, specFlightsAux, hp2]
      exact ih _ _

/-- Claim C3 (amended): the cumulative KML flight grouping
(generate_cumulative_kml, whose timestamps are datetime objects and
therefore always truthy) segments every history exactly as the claim
states: a new flight starts exactly when the gap to the previous
valid point of the mac is strictly greater than the stale threshold,
a gap equal to the threshold keeps the point in the current flight,
and any final non-empty buffer is flushed as the last flight.  The
session KML grouping (generate_kml, epoch-float timestamps) obeys the
same rule provided every valid-position point of the mac has a
nonzero timestamp; a previous timestamp of exactly 0 is falsy in
Python and never breaks a session flight. -/
theorem flight_segmentation_matches_spec (thr : Rat) (mac : String) (hist : List Det) :
    generate_cumulative_kml_flights thr mac hist = spec_flights thr mac hist
    ∧ ((∀ d ∈ hist, kmlPasses mac d = true → d.last_update.getD 0 ≠ 0) →
        generate_kml_flights thr mac hist = spec_flights thr mac hist) := by
  constructor
  · exact cumulativeFlightsAux_eq_spec thr mac hist [] none
  · intro h
    exact flightsAux_eq_spec thr mac hist [] none h (fun t ht => by cases ht)

/-- Witness for the amended C3 at concrete histories: gaps 30 and 170
around the threshold 60 give two flights in both generators, and the
cumulative generator splits at a gap of 100 even when the previous
timestamp is 0. -/
theorem flights_eq_spec_witness :
    generate_cumulative_kml_flights staleThreshold "AA"
        [flightDet 10, flightDet 40, flightDet 210] =
      spec_flights staleThreshold "AA" [flightDet 10, flightDet 40, flightDet 210] ∧
    generate_kml_flights staleThreshold "AA" [flightDet 10, flightDet 40, flightDet 210] =
      spec_flights staleThreshold "AA" [flightDet 10, flightDet 40, flightDet 210] ∧
    generate_kml_flights staleThreshold "AA" [flightDet 10, flightDet 40, flightDet 210] =
      [[⟨2, 1, 10⟩, ⟨2, 1, 40⟩], [⟨2, 1, 210⟩]] ∧
    generate_cumulative_kml_flights staleThreshold "AA" [flightDet 0, flightDet 100] =
      [[⟨2, 1, 0⟩], [⟨2, 1, 100⟩]] :=
  ⟨(flight_segmentation_matches_spec staleThreshold "AA"
      [flightDet 10, flightDet 40, flightDet 210]).1,
   (flight_segmentation_matches_spec staleThreshold "AA"
      [flightDet 10, flightDet 40, flightDet 210]).2
      (by
        intro d hd hp
        simp only [List.mem_cons, List.not_mem_nil, or_false] at hd
        rcases hd with rfl | rfl | rfl <;> decide),
   by norm_num [generate_kml_flights, flightsAux, kmlPasses, truthyR, flightDet, det0,
     staleThreshold],
   by norm_num [generate_cumulative_kml_flights, cumulativeFlightsAux, kmlPasses, truthyR,
     flightDet, det0, staleThreshold, datetimeTruthy]⟩

lemma faaByBasicId_eq_find (l : List (String × Det)) (id2 : String) :
    faaByBasicId l id2 =
      (l.find? (fun p => decide (p.2.basic_id = some id2) && p.2.faa_data.isSome)).bind
        (fun p => p.2.faa_data) := by
  induction l with
  | nil => rfl
  | cons e rest ih =>
    obtain ⟨m, d⟩ := e
    by_cases hb : d.basic_id = some id2
    · cases hf : d.faa_data with
      | some fd => simp [faaByBasicId, hb, hf]
      | none => simp [faaByBasicId, hb, hf, ih]
    · simp [faaByBasicId, hb, ih]

lemma cacheByRid_eq_find (l : List ((String × String) × FaaData)) (id2 : String) :
    cacheByRid l id2 = (l.find? (fun e => decide (e.1.2 = id2))).map (fun e => e.2) := by
  induction l with
  | nil => rfl
  | cons e rest ih =>
    obtain ⟨k, fd⟩ := e
    by_cases hk : k.2 = id2
    · simp [cacheByRid, hk]
    · simp [cacheByRid, hk, ih]

lemma match_faa_eq_bind (o : Option Det) :
    (match o with
     | some d => d.faa_data
     | none => none) = o.bind (fun d => d.faa_data) := by
  cases o <;> rfl

/-! Claim C7. -/

/-- Claim C7 (confirmed): the GET /api/faa/identifier handler is a pure
lookup equal to the four-step cascade the specification describes —
LiveState entry at key identifier carrying faa_data, else a LiveState
entry whose basic_id equals the identifier and carries faa_data, else
a cache entry whose remote id key component equals the identifier,
else a cache entry whose mac key component equals the identifier — and
it answers none (HTTP 404) exactly when all four lookups fail.  The
embedding is effect-free, so no network is contacted. -/
theorem api_get_faa_eq_spec_cascade (st : ServerState) (identifier : String) :
    api_get_faa st identifier = spec_get_faa st identifier ∧
    (api_get_faa st identifier = none ↔
      (specLiveByMac st identifier = none ∧ specLiveByRid st identifier = none ∧
       specCacheByRid st identifier = none ∧ specCacheByMac st identifier = none)) := by
  have hmain : api_get_faa st identifier = spec_get_faa st identifier := by
    unfold api_get_faa spec_get_faa specLiveByMac specLiveByRid specCacheByRid specCacheByMac
    rw [match_faa_eq_bind, faaByBasicId_eq_find, cacheByRid_eq_find, findByMac_eq_find]
    cases hA : (lookupD st.tracked_pairs identifier).bind (fun d => d.faa_data) with
    | some fd => simp [hA, Option.orElse]
    | none =>
      simp only [hA]
      cases hB : (st.tracked_pairs.find?
          (fun p => decide (p.2.basic_id = some identifier) && p.2.faa_data.isSome)).bind
          (fun p => p.2.faa_data) with
      | some fd => simp [hB, Option.orElse]
      | none =>
        simp only [hB]
        cases hC : (st.faa_cache.find? (fun e => decide (e.1.2 = identifier))).map
            (fun e => e.2) with
        | some fd => simp [hC, Option.orElse]
        | none => simp [hC, Option.orElse]
  refine ⟨hmain, ?_⟩
  rw [hmain]
  unfold spec_get_faa
  cases hA : specLiveByMac st identifier with
  | some fd => simp [hA, Option.orElse]
  | none =>
    cases hB : specLiveByRid st identifier with
    | some fd => simp [hA, hB, Option.orElse]
    | none =>
      cases hC : specCacheByRid st identifier with
      | some fd => simp [hA, hB, hC, Option.orElse]
      | none =>
        cases hD : specCacheByMac st identifier with
        | some fd => simp [hA, hB, hC, hD, Option.orElse]
        | none => simp [hA, hB, hC, hD, Option.orElse]

lemma lookupD_addPoint (m : String) (pt : Rat × Rat) (acc : List (String × List (Rat × Rat)))
    (mac : String) :
    lookupD (addPoint m pt acc) mac =
      if m = mac then some ((lookupD acc mac).getD [] ++ [pt]) else lookupD acc mac := by
  induction acc with
  | nil =>
    by_cases h : m = mac <;> simp [addPoint, lookupD, h]
  | cons kv rest ih =>
    obtain ⟨k, l⟩ := kv
    by_cases hk : k = m
    · subst hk
      by_cases hm : k = mac
      · subst hm
        simp [addPoint, lookupD]
      · simp [addPoint, lookupD, hm]
    · by_cases hm2 : m = mac
      · subst hm2
        simp [addPoint, lookupD, hk, ih]
      · simp [addPoint, lookupD, hk, hm2, ih]

lemma specPoints_cons (sel : Det → Option (Rat × Rat)) (mac : String) (d : Det)
    (rest : List Det) :
    specPoints sel mac (d :: rest) =
      (match (if d.mac = some mac then sel d else none) with
       | some pt => pt :: specPoints sel mac rest
       | none => specPoints sel mac rest) := by
  unfold specPoints
  rw [List.filterMap_cons]
  cases hx : (if d.mac = some mac then sel d else none) <;> simp [hx]

lemma lookupD_foldl_pathStep (sel : Det → Option (Rat × Rat)) :
    ∀ (hist : List Det) (acc : List (String × List (Rat × Rat))) (mac : String),
      mac ≠ "" →
      lookupD (hist.foldl (pathStep sel) acc) mac =
        (match lookupD acc mac with
         | some l => some (l ++ specPoints sel mac hist)
         | none =>
             if specPoints sel mac hist = [] then none else some (specPoints sel mac hist)) := by
  intro hist
  induction hist with
  | nil =>
    intro acc mac hmac
    cases hacc : lookupD acc mac <;> simp [hacc, specPoints]
  | cons d rest ih =>
    intro acc mac hmac
    rw [List.foldl_cons, specPoints_cons]
    by_cases hdm : d.mac = some mac
    · have htr : truthyS d.mac = true := by
        rw [hdm, truthyS]
        simp [hmac]
      have hget : d.mac.getD "" = mac := by rw [hdm]; rfl
      rw [if_pos hdm]
      cases hsel : sel d with
      | some pt =>
        have hstep : pathStep sel acc d = addPoint mac pt acc := by
          unfold pathStep
          rw [if_pos htr, hsel, hget]
        rw [hstep, ih _ _ hmac, lookupD_addPoint, if_pos rfl]
        cases hacc : lookupD acc mac <;> simp [hacc]
      | none =>
        have hstep : pathStep sel acc d = acc := by
          unfold pathStep
          rw [if_pos htr, hsel]
        rw [hstep, ih _ _ hmac]
    · have hx : (if d.mac = some mac then sel d else none) = none := if_neg hdm
      rw [hx]
      by_cases htr : truthyS d.mac = true
      · cases hsel : sel d with
        | some pt =>
          have hne : d.mac.getD "" ≠ mac := by
            obtain ⟨s, hs, hsne⟩ := (truthyS_iff d.mac).mp htr
            rw [hs]
            intro he
            exact hdm (by rw [hs]; exact congrArg some he)
          have hstep : pathStep sel acc d = addPoint (d.mac.getD "") pt acc := by
            unfold pathStep
            rw [if_pos htr, hsel]
          rw [hstep, ih _ _ hmac, lookupD_addPoint, if_neg hne]
        | none =>
          have hstep : pathStep sel acc d = acc := by
            unfold pathStep
            rw [if_pos htr, hsel]
          rw [hstep, ih _ _ hmac]
      · have hstep : pathStep sel acc d = acc := by
          unfold pathStep
          rw [if_neg htr]
        rw [hstep, ih _ _ hmac]

lemma lookupD_map_dedupe (l : List (String × List (Rat × Rat))) (mac : String) :
    lookupD (l.map (fun p => (p.1, dedupe p.2))) mac = (lookupD l mac).map dedupe := by
  induction l with
  | nil => rfl
  | cons kv rest ih =>
    obtain ⟨k, v⟩ := kv
    by_cases hk : k = mac
    · simp [lookupD, hk]
    · simp [lookupD, hk, ih]

lemma apiPath_lookup_eq (sel : Det → Option (Rat × Rat)) (hist : List Det) (mac : String)
    (hmac : mac ≠ "") :
    (lookupD ((buildPaths sel hist).map (fun p => (p.1, dedupe p.2))) mac).getD [] =
      dedupe (specPoints sel mac hist) := by
  rw [lookupD_map_dedupe]
  unfold buildPaths
  rw [lookupD_foldl_pathStep sel hist [] mac hmac]
  by_cases hsp : specPoints sel mac hist = []
  · simp [lookupD, hsp, dedupe]
  · simp [lookupD, hsp]

lemma chain_dedupeAux {α : Type} [DecidableEq α] :
    ∀ (l : List α) (prev : α), List.Chain (fun a b => a ≠ b) prev (dedupeAux prev l) := by
  intro l
  induction l with
  | nil => intro prev; exact List.Chain.nil
  | cons x xs ih =>
    intro prev
    by_cases hx : x = prev
    · simp only [dedupeAux, hx, if_pos rfl]
      exact ih prev
    · simp only [dedupeAux, if_neg hx]
      exact List.Chain.cons (fun he => hx he.symm) (ih x)

lemma chain_dedupe {α : Type} [DecidableEq α] (l : List α) :
    List.Chain' (fun a b => a ≠ b) (dedupe l) := by
  cases l with
  | nil => simp [dedupe]
  | cons x xs =>
    show List.Chain (fun a b => a ≠ b) x (dedupeAux x xs)
    exact chain_dedupeAux xs x

/-! Claim C9. -/

/-- Claim C9 (confirmed): for every nonempty mac, the drone polyline
of GET /api/paths equals the consecutive-duplicate collapse of exactly
the history points of that mac with both drone coordinates nonzero, in
history order; the analogous statement holds for pilot points; and
consequently no returned polyline contains two consecutive equal
points. -/
theorem api_paths_dedupe_spec (hist : List Det) (mac : String) (hmac : mac ≠ "") :
    (lookupD (api_paths_drone hist) mac).getD [] = dedupe (specPoints dronePointOf mac hist)
    ∧ List.Chain' (fun a b => a ≠ b) ((lookupD (api_paths_drone hist) mac).getD [])
    ∧ (lookupD (api_paths_pilot hist) mac).getD [] = dedupe (specPoints pilotPointOf mac hist)
    ∧ List.Chain' (fun a b => a ≠ b) ((lookupD (api_paths_pilot hist) mac).getD []) := by
  have h1 : (lookupD (api_paths_drone hist) mac).getD [] =
      dedupe (specPoints dronePointOf mac hist) :=
    apiPath_lookup_eq dronePointOf hist mac hmac
  have h2 : (lookupD (api_paths_pilot hist) mac).getD [] =
      dedupe (specPoints pilotPointOf mac hist) :=
    apiPath_lookup_eq pilotPointOf hist mac hmac
  refine ⟨h1, ?_, h2, ?_⟩
  · rw [h1]
    exact chain_dedupe _
  · rw [h2]
    exact chain_dedupe _

/-- Witness for C9 at a concrete history with a repeated drone point
and a no-fix record: the duplicate collapses and the no-fix record is
absent. -/
theorem api_paths_witness :
    ("AA" : String) ≠ "" ∧
    ((lookupD (api_paths_drone histW9) "AA").getD [] =
        dedupe (specPoints dronePointOf "AA" histW9)
      ∧ List.Chain' (fun a b => a ≠ b) ((lookupD (api_paths_drone histW9) "AA").getD [])
      ∧ (lookupD (api_paths_pilot histW9) "AA").getD [] =
          dedupe (specPoints pilotPointOf "AA" histW9)
      ∧ List.Chain' (fun a b => a ≠ b) ((lookupD (api_paths_pilot histW9) "AA").getD [])) ∧
    (lookupD (api_paths_drone histW9) "AA").getD [] = [(1, 2), (3, 4)] ∧
    (lookupD (api_paths_pilot histW9) "AA").getD [] = [(9, 9)] :=
  ⟨by decide, api_paths_dedupe_spec histW9 "AA" (by decide), by decide, by decide⟩

end MeshMapper
